import Mathlib

/-!
Verification development for the `url-shortener` repository.

The Python sources are embedded shallowly:
* `src/utils/link_checker.py` — the validation regex is embedded as a regular
  expression term `linkPattern` over a small derivative-based matcher,
  together with an inductive language semantics `RMatch` and a soundness
  lemma for the executable matcher.
* `src/utils/short_code_generator.py` — SHA-256 and URL-safe base64 are
  implemented as pure functions on byte lists (`Nat` values `< 256`).
* `src/database/models.py`, `src/database/crud.py` — the table is a list of
  `ShortLink` rows with the columns as declared: the URL column is
  `full_url`.  `crud.py` and `app.py`, however, access `original_url`
  throughout, which is not an attribute of the mapped class; under Python
  semantics those accesses raise (`AttributeError`, `TypeError`,
  `InvalidRequestError`).  Hence `get_existing_record`, `add_new_link` and
  `renew_url_record` are embedded as always-failing operations (over
  `StoreError`); only `get_record_by_short_code`, which filters on the real
  column `short_url`, performs a lookup.
* `src/app.py` — the three endpoints become state transformers over
  `AppState`; Python `datetime` values are modelled as integer seconds.
  An uncaught exception reaches the `@app.exception_handler(Exception)`
  catch-all, embedded as the `internalError` (HTTP 500) outcome: every
  create request dies inside `get_existing_record` right after the
  limiter's window bookkeeping, and resolve/redirect answer 404 for absent
  or stale codes but crash reading `link.original_url` for fresh ones.
-/

/-! ## Regular expressions with Brzozowski derivatives

`src/utils/link_checker.py` validates with
`re.match(r"^(https?://)?(www\.)?[a-zA-Z0-9-]+(\.[a-zA-Z]{2,})+(/[a-zA-Z0-9#-]*)*$", link)`.
We embed the pattern as a regular-expression term and decide membership with
derivatives.  Python's `$` also matches just before a single trailing
newline, so the embedded language has an optional trailing `'\n'`.
-/

inductive RE where
  | emp : RE
  | eps : RE
  | cls : (Char → Bool) → RE
  | alt : RE → RE → RE
  | cat : RE → RE → RE
  | star : RE → RE

def RE.nullable : RE → Bool
  | .emp => false
  | .eps => true
  | .cls _ => false
  | .alt r s => r.nullable || s.nullable
  | .cat r s => r.nullable && s.nullable
  | .star _ => true

/-- Smart alternation: drops `emp` summands to keep derivatives small. -/
def RE.mkAlt : RE → RE → RE
  | .emp, s => s
  | r, .emp => r
  | r, s => .alt r s

/-- Smart concatenation: absorbs `emp`, cancels `eps`. -/
def RE.mkCat : RE → RE → RE
  | .emp, _ => .emp
  | _, .emp => .emp
  | .eps, s => s
  | r, .eps => r
  | r, s => .cat r s

def RE.deriv (a : Char) : RE → RE
  | .emp => .emp
  | .eps => .emp
  | .cls p => if p a then .eps else .emp
  | .alt r s => mkAlt (r.deriv a) (s.deriv a)
  | .cat r s =>
      if r.nullable then mkAlt (mkCat (r.deriv a) s) (s.deriv a)
      else mkCat (r.deriv a) s
  | .star r => mkCat (r.deriv a) (.star r)

def RE.matchList (r : RE) (s : List Char) : Bool :=
  (s.foldl (fun r a => r.deriv a) r).nullable

/-- Language semantics of `RE`. -/
inductive RMatch : RE → List Char → Prop where
  | eps : RMatch .eps []
  | cls {p : Char → Bool} {a : Char} : p a = true → RMatch (.cls p) [a]
  | altL {r s : RE} {w : List Char} : RMatch r w → RMatch (.alt r s) w
  | altR {r s : RE} {w : List Char} : RMatch s w → RMatch (.alt r s) w
  | cat {r s : RE} {u v : List Char} :
      RMatch r u → RMatch s v → RMatch (.cat r s) (u ++ v)
  | starNil {r : RE} : RMatch (.star r) []
  | starCons {r : RE} {u v : List Char} :
      RMatch r u → RMatch (.star r) v → RMatch (.star r) (u ++ v)

theorem RMatch.mkAlt_sound {r s : RE} {w : List Char} :
    RMatch (RE.mkAlt r s) w → RMatch (RE.alt r s) w := by
  intro h
  cases r <;> cases s <;> first
    | exact h
    | exact .altL h
    | exact .altR h

theorem RMatch.cat_inv {r s : RE} {w : List Char} (h : RMatch (.cat r s) w) :
    ∃ u v, w = u ++ v ∧ RMatch r u ∧ RMatch s v := by
  cases h with
  | cat hu hv => exact ⟨_, _, rfl, hu, hv⟩

theorem RMatch.emp_inv {w : List Char} (h : RMatch .emp w) : False := by
  cases h

theorem RMatch.mkCat_sound {r s : RE} {w : List Char} :
    RMatch (RE.mkCat r s) w → RMatch (RE.cat r s) w := by
  intro h
  cases r <;> cases s <;>
    first
      | exact (RMatch.emp_inv h).elim
      | exact h
      | exact (RMatch.eps.cat h)
      | exact (by simpa using h.cat RMatch.eps)

theorem RMatch.nullable_sound {r : RE} (h : r.nullable = true) : RMatch r [] := by
  induction r with
  | emp => simp [RE.nullable] at h
  | eps => exact .eps
  | cls p => simp [RE.nullable] at h
  | alt r s ihr ihs =>
      rcases Bool.or_eq_true_iff.mp h with h' | h'
      · exact .altL (ihr h')
      · exact .altR (ihs h')
  | cat r s ihr ihs =>
      rcases Bool.and_eq_true_iff.mp h with ⟨h1, h2⟩
      exact (ihr h1).cat (ihs h2)
  | star r _ => exact .starNil

theorem RMatch.deriv_sound {a : Char} :
    ∀ {r : RE} {w : List Char}, RMatch (r.deriv a) w → RMatch r (a :: w) := by
  intro r
  induction r with
  | emp => intro w h; exact (RMatch.emp_inv h).elim
  | eps => intro w h; exact (RMatch.emp_inv h).elim
  | cls p =>
      intro w h
      by_cases hp : p a
      · simp only [RE.deriv, hp, if_true] at h
        cases h
        exact .cls hp
      · simp only [RE.deriv, hp, if_false] at h
        exact (RMatch.emp_inv h).elim
  | alt r s ihr ihs =>
      intro w h
      cases RMatch.mkAlt_sound h with
      | altL h' => exact .altL (ihr h')
      | altR h' => exact .altR (ihs h')
  | cat r s ihr ihs =>
      intro w h
      simp only [RE.deriv] at h
      by_cases hn : r.nullable
      · simp only [hn, if_true] at h
        cases RMatch.mkAlt_sound h with
        | altL h' =>
            obtain ⟨u, v, rfl, hu, hv⟩ := (RMatch.mkCat_sound h').cat_inv
            exact (ihr hu).cat hv
        | altR h' =>
            exact (RMatch.nullable_sound hn).cat (ihs h')
      · simp only [hn, if_false] at h
        obtain ⟨u, v, rfl, hu, hv⟩ := (RMatch.mkCat_sound h).cat_inv
        exact (ihr hu).cat hv
  | star r ihr =>
      intro w h
      obtain ⟨u, v, rfl, hu, hv⟩ := (RMatch.mkCat_sound h).cat_inv
      exact (ihr hu).starCons hv

theorem RMatch.matchList_sound :
    ∀ (s : List Char) (r : RE), RE.matchList r s = true → RMatch r s := by
  intro s
  induction s with
  | nil => intro r h; exact RMatch.nullable_sound h
  | cons a s ih =>
      intro r h
      exact RMatch.deriv_sound (ih (r.deriv a) h)

/-- `UsesOnly P r`: every character class of `r` accepts only characters
satisfying `P`; hence every matched word consists of such characters. -/
def UsesOnly (P : Char → Prop) : RE → Prop
  | .emp => True
  | .eps => True
  | .cls q => ∀ c, q c = true → P c
  | .alt r s => UsesOnly P r ∧ UsesOnly P s
  | .cat r s => UsesOnly P r ∧ UsesOnly P s
  | .star r => UsesOnly P r

theorem RMatch.usesOnly {P : Char → Prop} :
    ∀ {r : RE} {w : List Char}, RMatch r w → UsesOnly P r → ∀ c ∈ w, P c := by
  intro r w h
  induction h with
  | eps => intro _ c hc; cases hc
  | cls hp => intro hu c hc; cases hc with
      | head => exact hu _ hp
      | tail _ hc => cases hc
  | altL _ ih => intro hu; exact ih hu.1
  | altR _ ih => intro hu; exact ih hu.2
  | cat _ _ ihu ihv =>
      intro hu c hc
      rcases List.mem_append.mp hc with hc | hc
      · exact ihu hu.1 c hc
      · exact ihv hu.2 c hc
  | starNil => intro _ c hc; cases hc
  | starCons _ _ ihu ihv =>
      intro hu c hc
      rcases List.mem_append.mp hc with hc | hc
      · exact ihu hu c hc
      · exact ihv hu c hc

/-! ## The link-checker pattern (`src/utils/link_checker.py`) -/

/-- Single literal character. -/
def RE.chr (c : Char) : RE := .cls (fun a => a == c)

/-- Literal string. -/
def RE.lit : List Char → RE
  | [] => .eps
  | c :: cs => .cat (.chr c) (RE.lit cs)

/-- `r?` -/
def RE.optional (r : RE) : RE := .alt .eps r

/-- `r+` -/
def RE.plus (r : RE) : RE := .cat r (.star r)

/-- Character class `[a-zA-Z0-9-]` (host characters). -/
def hostChar (c : Char) : Bool := c.isAlpha || c.isDigit || c == '-'

/-- Character class `[a-zA-Z]` (label characters). -/
def letterChar (c : Char) : Bool := c.isAlpha

/-- Character class `[a-zA-Z0-9#-]` (path characters). -/
def pathChar (c : Char) : Bool := c.isAlpha || c.isDigit || c == '#' || c == '-'

/-- `(https?://)?` -/
def schemePart : RE :=
  .optional (.cat (.lit "http".data) (.cat (.optional (.chr 's')) (.lit "://".data)))

/-- `(www\.)?` -/
def wwwPart : RE := .optional (.lit "www.".data)

/-- `[a-zA-Z0-9-]+` -/
def hostPart : RE := .plus (.cls hostChar)

/-- `(\.[a-zA-Z]{2,})+` -/
def labelsPart : RE :=
  .plus (.cat (.chr '.') (.cat (.cls letterChar) (.plus (.cls letterChar))))

/-- `(/[a-zA-Z0-9#-]*)*` -/
def pathsPart : RE := .star (.cat (.chr '/') (.star (.cls pathChar)))

/-- The full pattern of `check_link`, between `^` and `$`.  Python's `$`
(without `re.MULTILINE`) also matches just before one trailing newline, so
the accepted language gets an optional final `'\n'`. -/
def linkPattern : RE :=
  .cat schemePart (.cat wwwPart (.cat hostPart (.cat labelsPart (.cat pathsPart
    (.optional (.chr '\n'))))))

/-- `check_link` from `src/utils/link_checker.py`: full-string regex match. -/
def check_link (link : String) : Bool :=
  RE.matchList linkPattern link.data

example : check_link "example.com" = true := by decide
example : check_link "http://example.com/a-b#c" = true := by decide
example : check_link "not a url" = false := by decide
example : check_link "" = false := by decide
example : check_link "example.com:8080" = false := by decide
example : check_link "http://example.com?q=1" = false := by decide
example : check_link "https://www.example.com/x" = true := by decide

/-! ### Inversion and character-set lemmas about the pattern -/

theorem RMatch.chr_inv {c : Char} {w : List Char} (h : RMatch (RE.chr c) w) :
    w = [c] := by
  cases h with
  | cls hp =>
      rename_i a
      rw [show a = c from by simpa using hp]

theorem RMatch.lit_inv : ∀ {cs w : List Char}, RMatch (RE.lit cs) w → w = cs := by
  intro cs
  induction cs with
  | nil =>
      intro w h
      cases h
      rfl
  | cons c cs ih =>
      intro w h
      obtain ⟨u, v, rfl, hu, hv⟩ := h.cat_inv
      rw [hu.chr_inv, ih hv]
      rfl

theorem RMatch.optional_chr_inv {c : Char} {w : List Char}
    (h : RMatch (RE.optional (RE.chr c)) w) : w = [] ∨ w = [c] := by
  cases h with
  | altL h => cases h; exact .inl rfl
  | altR h => exact .inr h.chr_inv

/-- A word matched by `(https?://)?` is empty, `http://`, or `https://`. -/
theorem RMatch.schemePart_inv {w : List Char} (h : RMatch schemePart w) :
    w = [] ∨ w = "http://".data ∨ w = "https://".data := by
  cases h with
  | altL h => cases h; exact .inl rfl
  | altR h =>
      obtain ⟨u1, v1, rfl, hu1, hv1⟩ := h.cat_inv
      obtain ⟨u2, v2, rfl, hu2, hv2⟩ := hv1.cat_inv
      rw [hu1.lit_inv, hv2.lit_inv]
      rcases hu2.optional_chr_inv with h2 | h2 <;> rw [h2]
      · exact .inr (.inl (by decide))
      · exact .inr (.inr (by decide))

theorem usesOnly_eps {P : Char → Prop} : UsesOnly P .eps := trivial

theorem usesOnly_cls {P : Char → Prop} {q : Char → Bool}
    (h : ∀ c, q c = true → P c) : UsesOnly P (.cls q) := h

theorem usesOnly_chr {P : Char → Prop} {c : Char} (h : P c) :
    UsesOnly P (RE.chr c) := by
  intro a ha
  rwa [show a = c from by simpa using ha]

theorem usesOnly_alt {P : Char → Prop} {r s : RE}
    (hr : UsesOnly P r) (hs : UsesOnly P s) : UsesOnly P (.alt r s) := ⟨hr, hs⟩

theorem usesOnly_cat {P : Char → Prop} {r s : RE}
    (hr : UsesOnly P r) (hs : UsesOnly P s) : UsesOnly P (.cat r s) := ⟨hr, hs⟩

theorem usesOnly_star {P : Char → Prop} {r : RE}
    (hr : UsesOnly P r) : UsesOnly P (.star r) := hr

theorem usesOnly_optional {P : Char → Prop} {r : RE}
    (hr : UsesOnly P r) : UsesOnly P (RE.optional r) := ⟨trivial, hr⟩

theorem usesOnly_plus {P : Char → Prop} {r : RE}
    (hr : UsesOnly P r) : UsesOnly P (RE.plus r) := ⟨hr, hr⟩

theorem usesOnly_lit {P : Char → Prop} :
    ∀ {cs : List Char}, (∀ c ∈ cs, P c) → UsesOnly P (RE.lit cs) := by
  intro cs
  induction cs with
  | nil => intro _; exact trivial
  | cons c cs ih =>
      intro h
      exact usesOnly_cat (usesOnly_chr (h c (by simp))) (ih fun a ha => h a (by simp [ha]))

/-- Everything after the scheme — `(www\.)?`, host, labels, paths, and the
trailing-newline allowance — matches no `':'` at all. -/
theorem usesOnly_after_scheme_no_colon :
    UsesOnly (fun c => c ≠ ':')
      (RE.cat wwwPart (.cat hostPart (.cat labelsPart (.cat pathsPart
        (.optional (RE.chr '\n')))))) := by
  refine usesOnly_cat ?_ (usesOnly_cat ?_ (usesOnly_cat ?_ (usesOnly_cat ?_ ?_)))
  · exact usesOnly_optional (usesOnly_lit (by decide))
  · exact usesOnly_plus (usesOnly_cls fun c hc he => by subst he; exact absurd hc (by decide))
  · exact usesOnly_plus (usesOnly_cat
      (usesOnly_chr (by decide))
      (usesOnly_cat
        (usesOnly_cls fun c hc he => by subst he; exact absurd hc (by decide))
        (usesOnly_plus (usesOnly_cls fun c hc he => by subst he; exact absurd hc (by decide)))))
  · exact usesOnly_star (usesOnly_cat
      (usesOnly_chr (by decide))
      (usesOnly_star (usesOnly_cls fun c hc he => by subst he; exact absurd hc (by decide))))
  · exact usesOnly_optional (usesOnly_chr (by decide))

/-- No part of the pattern matches a `'?'`. -/
theorem usesOnly_linkPattern_no_qmark :
    UsesOnly (fun c => c ≠ '?') linkPattern := by
  refine usesOnly_cat ?_ (usesOnly_cat ?_ (usesOnly_cat ?_ (usesOnly_cat ?_
    (usesOnly_cat ?_ ?_))))
  · exact usesOnly_optional (usesOnly_cat (usesOnly_lit (by decide))
      (usesOnly_cat (usesOnly_optional (usesOnly_chr (by decide)))
        (usesOnly_lit (by decide))))
  · exact usesOnly_optional (usesOnly_lit (by decide))
  · exact usesOnly_plus (usesOnly_cls fun c hc he => by subst he; exact absurd hc (by decide))
  · exact usesOnly_plus (usesOnly_cat
      (usesOnly_chr (by decide))
      (usesOnly_cat
        (usesOnly_cls fun c hc he => by subst he; exact absurd hc (by decide))
        (usesOnly_plus (usesOnly_cls fun c hc he => by subst he; exact absurd hc (by decide)))))
  · exact usesOnly_star (usesOnly_cat
      (usesOnly_chr (by decide))
      (usesOnly_star (usesOnly_cls fun c hc he => by subst he; exact absurd hc (by decide))))
  · exact usesOnly_optional (usesOnly_chr (by decide))

/-- C7: the validator is a pure function; the spec's boundary cases hold,
every string containing `'?'` is rejected, and in any accepted string a
`':'` can only be the scheme colon — index 4 under a `http://` prefix or
index 5 under a `https://` prefix — so any URL with a port (a `':'`
anywhere after the host) is rejected. -/
theorem check_link_boundary_cases_and_gaps :
    check_link "example.com" = true ∧
    check_link "http://example.com/a-b#c" = true ∧
    check_link "not a url" = false ∧
    check_link "" = false ∧
    (∀ s : String, '?' ∈ s.data → check_link s = false) ∧
    (∀ s : String, check_link s = true →
      ∀ i, ∀ h : i < s.data.length, s.data[i] = ':' →
        (i = 4 ∧ List.IsPrefix "http://".data s.data) ∨
        (i = 5 ∧ List.IsPrefix "https://".data s.data)) := by
  refine ⟨by decide, by decide, by decide, by decide, ?_, ?_⟩
  · intro s hq
    by_contra hne
    have ht : check_link s = true := by
      simpa using hne
    have hm := RMatch.matchList_sound s.data linkPattern ht
    exact (hm.usesOnly usesOnly_linkPattern_no_qmark '?' hq) rfl
  · intro s hcl i
    have hm := RMatch.matchList_sound s.data linkPattern hcl
    generalize hl : s.data = l at hm ⊢
    intro h hc
    obtain ⟨u, v, rfl, hu, hv⟩ := hm.cat_inv
    have hvnc : ∀ c ∈ v, c ≠ ':' :=
      hv.usesOnly usesOnly_after_scheme_no_colon
    rcases hu.schemePart_inv with h0 | h0 | h0 <;> subst h0
    · exfalso
      simp only [List.nil_append] at h hc
      exact hvnc _ (List.getElem_mem h) hc
    · by_cases hi : i < ("http://".data).length
      · have hcu : ("http://".data)[i] = ':' := by
          rw [← hc]
          exact (List.getElem_append_left hi).symm
        have hcu2 : ("http://".data).getD i 'x' = ':' := by
          rw [List.getD_eq_getElem _ _ hi]
          exact hcu
        refine .inl ⟨?_, ⟨v, rfl⟩⟩
        have hi7 : i < 7 := hi
        interval_cases i <;> first | rfl | exact absurd hcu2 (by decide)
      · exfalso
        push_neg at hi
        have hiv : i - ("http://".data).length < v.length := by
          have hlen := h
          rw [List.length_append] at hlen
          have h7 : ("http://".data).length = 7 := rfl
          omega
        have hcv : v[i - ("http://".data).length] = ':' := by
          rw [← hc]
          exact (List.getElem_append_right hi).symm
        exact hvnc _ (List.getElem_mem hiv) hcv
    · by_cases hi : i < ("https://".data).length
      · have hcu : ("https://".data)[i] = ':' := by
          rw [← hc]
          exact (List.getElem_append_left hi).symm
        have hcu2 : ("https://".data).getD i 'x' = ':' := by
          rw [List.getD_eq_getElem _ _ hi]
          exact hcu
        refine .inr ⟨?_, ⟨v, rfl⟩⟩
        have hi8 : i < 8 := hi
        interval_cases i <;> first | rfl | exact absurd hcu2 (by decide)
      · exfalso
        push_neg at hi
        have hiv : i - ("https://".data).length < v.length := by
          have hlen := h
          rw [List.length_append] at hlen
          have h8 : ("https://".data).length = 8 := rfl
          omega
        have hcv : v[i - ("https://".data).length] = ':' := by
          rw [← hc]
          exact (List.getElem_append_right hi).symm
        exact hvnc _ (List.getElem_mem hiv) hcv

/-- Witness for C7: a query string and two port-carrying URLs are rejected,
via the universal parts of the theorem. -/
theorem check_link_boundary_cases_and_gaps_witness :
    check_link "a?b.com" = false ∧ check_link "example.com:8080" = false ∧
    check_link "http://example.com:8080/x" = false := by
  refine ⟨?_, ?_, ?_⟩
  · exact check_link_boundary_cases_and_gaps.2.2.2.2.1 "a?b.com" (by decide)
  · by_contra hne
    have ht : check_link "example.com:8080" = true := by simpa using hne
    have hpos := check_link_boundary_cases_and_gaps.2.2.2.2.2 "example.com:8080" ht
      11 (by decide) (by decide)
    rcases hpos with ⟨h4, _⟩ | ⟨h5, _⟩
    · exact absurd h4 (by decide)
    · exact absurd h5 (by decide)
  · by_contra hne
    have ht : check_link "http://example.com:8080/x" = true := by simpa using hne
    have hpos := check_link_boundary_cases_and_gaps.2.2.2.2.2 "http://example.com:8080/x" ht
      18 (by decide) (by decide)
    rcases hpos with ⟨h4, _⟩ | ⟨h5, _⟩
    · exact absurd h4 (by decide)
    · exact absurd h5 (by decide)

/-! ## SHA-256 and URL-safe base64 (`src/utils/short_code_generator.py`)

`generate_short_code` computes
`base64.urlsafe_b64encode(hashlib.sha256(url.encode("utf-8")).digest()[:6]).decode("utf-8")`.
Bytes are `Nat` values `< 256`; 32-bit words are `Nat` values reduced with
`% 2^32` wherever overflow matters. -/

/-- Truncation to a 32-bit word. -/
def m32 (x : Nat) : Nat := x % 4294967296

/-- Right rotation of a 32-bit word. -/
def rotr32 (n x : Nat) : Nat := m32 ((x >>> n) ||| (x <<< (32 - n)))

/-- Bitwise complement of a 32-bit word. -/
def not32 (x : Nat) : Nat := x ^^^ 4294967295

def bigSigma0 (x : Nat) : Nat := rotr32 2 x ^^^ rotr32 13 x ^^^ rotr32 22 x
def bigSigma1 (x : Nat) : Nat := rotr32 6 x ^^^ rotr32 11 x ^^^ rotr32 25 x
def smallSigma0 (x : Nat) : Nat := rotr32 7 x ^^^ rotr32 18 x ^^^ (x >>> 3)
def smallSigma1 (x : Nat) : Nat := rotr32 17 x ^^^ rotr32 19 x ^^^ (x >>> 10)
def chFun (x y z : Nat) : Nat := (x &&& y) ^^^ (not32 x &&& z)
def majFun (x y z : Nat) : Nat := (x &&& y) ^^^ (x &&& z) ^^^ (y &&& z)

/-- The 64 SHA-256 round constants (FIPS 180-4, here in decimal:
0x428a2f98, 0x71374491, ..., 0xc67178f2). -/
def kConstants : List Nat :=
  [1116352408, 1899447441, 3049323471, 3921009573,
   961987163, 1508970993, 2453635748, 2870763221,
   3624381080, 310598401, 607225278, 1426881987,
   1925078388, 2162078206, 2614888103, 3248222580,
   3835390401, 4022224774, 264347078, 604807628,
   770255983, 1249150122, 1555081692, 1996064986,
   2554220882, 2821834349, 2952996808, 3210313671,
   3336571891, 3584528711, 113926993, 338241895,
   666307205, 773529912, 1294757372, 1396182291,
   1695183700, 1986661051, 2177026350, 2456956037,
   2730485921, 2820302411, 3259730800, 3345764771,
   3516065817, 3600352804, 4094571909, 275423344,
   430227734, 506948616, 659060556, 883997877,
   958139571, 1322822218, 1537002063, 1747873779,
   1955562222, 2024104815, 2227730452, 2361852424,
   2428436474, 2756734187, 3204031479, 3329325298]

/-- The eight 32-bit working variables / hash words. -/
structure Sha256State where
  h0 : Nat
  h1 : Nat
  h2 : Nat
  h3 : Nat
  h4 : Nat
  h5 : Nat
  h6 : Nat
  h7 : Nat

/-- Initial hash value (FIPS 180-4 `H(0)`, `0x6a09e667 ...` in decimal). -/
def sha256Init : Sha256State :=
  ⟨1779033703, 3144134277, 1013904242, 2773480762,
   1359893119, 2600822924, 528734635, 1541459225⟩

/-- Big-endian 4-byte grouping of a block into 32-bit words. -/
def bytesToWords : List Nat → List Nat
  | b0 :: b1 :: b2 :: b3 :: rest =>
      ((b0 <<< 24) ||| (b1 <<< 16) ||| (b2 <<< 8) ||| b3) :: bytesToWords rest
  | _ => []

/-- One extension step of the message schedule:
`w[i] = σ₁(w[i-2]) + w[i-7] + σ₀(w[i-15]) + w[i-16]  (mod 2³²)`. -/
def scheduleStep (ws : List Nat) : List Nat :=
  let n := ws.length
  ws ++ [m32 (smallSigma1 (ws.getD (n - 2) 0) + ws.getD (n - 7) 0 +
              smallSigma0 (ws.getD (n - 15) 0) + ws.getD (n - 16) 0)]

def extendSchedule : Nat → List Nat → List Nat
  | 0, ws => ws
  | k + 1, ws => extendSchedule k (scheduleStep ws)

/-- One compression round with round constant `k` and schedule word `w`. -/
def sha256Round (st : Sha256State) (k w : Nat) : Sha256State :=
  let t1 := m32 (st.h7 + bigSigma1 st.h4 + chFun st.h4 st.h5 st.h6 + k + w)
  let t2 := m32 (bigSigma0 st.h0 + majFun st.h0 st.h1 st.h2)
  ⟨m32 (t1 + t2), st.h0, st.h1, st.h2, m32 (st.h3 + t1), st.h4, st.h5, st.h6⟩

/-- Compression of one 64-byte block. -/
def compressBlock (h : Sha256State) (block : List Nat) : Sha256State :=
  let w := extendSchedule 48 (bytesToWords block)
  let f := (kConstants.zip w).foldl (fun st kw => sha256Round st kw.1 kw.2) h
  ⟨m32 (h.h0 + f.h0), m32 (h.h1 + f.h1), m32 (h.h2 + f.h2), m32 (h.h3 + f.h3),
   m32 (h.h4 + f.h4), m32 (h.h5 + f.h5), m32 (h.h6 + f.h6), m32 (h.h7 + f.h7)⟩

/-- Big-endian 8-byte encoding of the bit length. -/
def lengthBytes (n : Nat) : List Nat :=
  [(n >>> 56) % 256, (n >>> 48) % 256, (n >>> 40) % 256, (n >>> 32) % 256,
   (n >>> 24) % 256, (n >>> 16) % 256, (n >>> 8) % 256, n % 256]

/-- SHA-256 padding: `0x80`, zeros to 56 mod 64, then the 64-bit bit length. -/
def padMessage (msg : List Nat) : List Nat :=
  msg ++ 0x80 :: (List.replicate ((119 - msg.length % 64) % 64) 0 ++
    lengthBytes (8 * msg.length))

/-- Fuel-based 64-byte chunking (structural recursion, so that it reduces in
the kernel); each step consumes at least one byte, so `l.length` fuel is
always enough. -/
def toBlocksAux : Nat → List Nat → List (List Nat)
  | 0, _ => []
  | _ + 1, [] => []
  | fuel + 1, l => l.take 64 :: toBlocksAux fuel (l.drop 64)

def toBlocks (l : List Nat) : List (List Nat) := toBlocksAux l.length l

/-- Big-endian serialization of one hash word. -/
def wordBytes (w : Nat) : List Nat :=
  [(w >>> 24) % 256, (w >>> 16) % 256, (w >>> 8) % 256, w % 256]

def digestBytes (st : Sha256State) : List Nat :=
  wordBytes st.h0 ++ wordBytes st.h1 ++ wordBytes st.h2 ++ wordBytes st.h3 ++
  wordBytes st.h4 ++ wordBytes st.h5 ++ wordBytes st.h6 ++ wordBytes st.h7

/-- SHA-256 of a byte list, as the 32-byte digest. -/
def sha256 (msg : List Nat) : List Nat :=
  digestBytes ((toBlocks (padMessage msg)).foldl compressBlock sha256Init)

/-- UTF-8 encoding of one character. -/
def utf8EncodeChar (c : Char) : List Nat :=
  let n := c.toNat
  if n < 0x80 then [n]
  else if n < 0x800 then
    [0xc0 ||| (n >>> 6), 0x80 ||| (n &&& 0x3f)]
  else if n < 0x10000 then
    [0xe0 ||| (n >>> 12), 0x80 ||| ((n >>> 6) &&& 0x3f), 0x80 ||| (n &&& 0x3f)]
  else
    [0xf0 ||| (n >>> 18), 0x80 ||| ((n >>> 12) &&& 0x3f),
     0x80 ||| ((n >>> 6) &&& 0x3f), 0x80 ||| (n &&& 0x3f)]

/-- UTF-8 encoding of a string (`str.encode("utf-8")`). -/
def utf8Bytes (s : String) : List Nat := s.data.flatMap utf8EncodeChar

/-- The URL-safe base64 alphabet (RFC 4648 §5), as used by
`base64.urlsafe_b64encode`. -/
def b64UrlChars : List Char :=
  "ABCDEFGHIJKLMNOPQRSTUVWXYZabcdefghijklmnopqrstuvwxyz0123456789-_".data

def b64Char (i : Nat) : Char := b64UrlChars.getD i 'A'

/-- URL-safe base64 encoding, `'='`-padded on a trailing 1- or 2-byte group. -/
def urlsafeEncodeChars : List Nat → List Char
  | b0 :: b1 :: b2 :: rest =>
      b64Char (b0 >>> 2) :: b64Char (((b0 &&& 3) <<< 4) ||| (b1 >>> 4)) ::
      b64Char (((b1 &&& 15) <<< 2) ||| (b2 >>> 6)) :: b64Char (b2 &&& 63) ::
      urlsafeEncodeChars rest
  | [b0, b1] =>
      [b64Char (b0 >>> 2), b64Char (((b0 &&& 3) <<< 4) ||| (b1 >>> 4)),
       b64Char ((b1 &&& 15) <<< 2), '=']
  | [b0] => [b64Char (b0 >>> 2), b64Char ((b0 &&& 3) <<< 4), '=', '=']
  | [] => []

def urlsafe_b64encode (bs : List Nat) : String := ⟨urlsafeEncodeChars bs⟩

/-- `generate_short_code` from `src/utils/short_code_generator.py`. -/
def generate_short_code (original_url : String) : String :=
  urlsafe_b64encode ((sha256 (utf8Bytes original_url)).take 6)

set_option maxRecDepth 100000 in
/-- Cross-check of the hash/encoding pipeline against CPython:
`base64.urlsafe_b64encode(hashlib.sha256(b"example.com").digest()[:6])`
is `b"o3mm9u6v"`. -/
example : generate_short_code "example.com" = "o3mm9u6v" := by decide

set_option maxRecDepth 100000 in
/-- FIPS 180-4 test vector: `sha256("abc") = ba7816bf 8f01cfea ...`. -/
example : sha256 (utf8Bytes "abc") =
    [0xba, 0x78, 0x16, 0xbf, 0x8f, 0x01, 0xcf, 0xea, 0x41, 0x41, 0x40, 0xde,
     0x5d, 0xae, 0x22, 0x23, 0xb0, 0x03, 0x61, 0xa3, 0x96, 0x17, 0x7a, 0x9c,
     0xb4, 0x10, 0xff, 0x61, 0xf2, 0x00, 0x15, 0xad] := by decide

/-- Every SHA-256 digest is 32 bytes. -/
theorem sha256_length (msg : List Nat) : (sha256 msg).length = 32 := by
  simp [sha256, digestBytes, wordBytes]

/-- The base64 alphabet never produces a padding character. -/
theorem b64Char_ne_pad (i : Nat) : b64Char i ≠ '=' := by
  unfold b64Char List.getD
  cases hq : b64UrlChars.get? i with
  | none => decide
  | some c =>
      have hc : c ∈ b64UrlChars := List.get?_mem hq
      simp only [Option.getD_some]
      intro he
      subst he
      exact absurd hc (by decide)

/-- Encoding a 6-byte group yields exactly 8 characters, none of them the
`'='` padding character. -/
theorem urlsafeEncodeChars_of_six {bs : List Nat} (h : bs.length = 6) :
    (urlsafeEncodeChars bs).length = 8 ∧ '=' ∉ urlsafeEncodeChars bs := by
  match bs, h with
  | [b0, b1, b2, b3, b4, b5], _ =>
      refine ⟨rfl, ?_⟩
      intro hmem
      simp only [urlsafeEncodeChars, List.mem_cons, List.not_mem_nil, or_false] at hmem
      rcases hmem with h' | h' | h' | h' | h' | h' | h' | h' <;>
        exact b64Char_ne_pad _ h'.symm

/-- C8: `generate_short_code` is deterministic and equals the URL-safe,
padding-free base64 encoding of the first 6 bytes of the SHA-256 digest of
the URL's UTF-8 encoding; its output is always exactly 8 characters. -/
theorem generate_short_code_deterministic_eight_chars :
    ∀ u : String,
      generate_short_code u = generate_short_code u ∧
      generate_short_code u = urlsafe_b64encode ((sha256 (utf8Bytes u)).take 6) ∧
      (generate_short_code u).length = 8 ∧
      '=' ∉ (generate_short_code u).data := by
  intro u
  have hlen : ((sha256 (utf8Bytes u)).take 6).length = 6 := by
    rw [List.length_take, sha256_length]
    decide
  obtain ⟨h8, hpad⟩ := urlsafeEncodeChars_of_six hlen
  exact ⟨rfl, rfl, h8, hpad⟩
/-! ## Data model (`src/database/models.py`) and store (`src/database/crud.py`)

The SQLAlchemy model declares the URL column as `full_url`
(`models.py:12`), but every accessor in `crud.py` and `app.py` refers to
`original_url`, which is not an attribute of the mapped class.  Under
Python semantics each such access raises, and the raised error propagates
to FastAPI's catch-all `Exception` handler, which answers the generic 500
response.  The row type below keeps the columns as declared, and the three
`original_url`-touching store operations are embedded as always-failing. -/

/-- A `short_links` row as declared in `models.py`: `full_url` (unique),
`short_url` (unique), `created_at` (modelled as integer seconds), `ttl`
(default 600).  The surrogate `id` plays no role in any operation. -/
structure ShortLink where
  full_url : String
  short_url : String
  created_at : Int
  ttl : Int
deriving DecidableEq, Repr

/-- One value of the `user_link_counts` defaultdict in `src/app.py`:
`{'count': ..., 'timestamp': ...}`. -/
structure LimitEntry where
  count : Nat
  timestamp : Int
deriving DecidableEq, Repr

/-- The process state of `src/app.py`: the in-memory rate-limiter map and
the database table (kept in insertion order, matching `first()`-style
lookups on an auto-increment primary key). -/
structure AppState where
  user_link_counts : String → Option LimitEntry
  store : List ShortLink

def MAX_LINKS_PER_USER : Nat := 100

/-- The Python exceptions the store layer raises because the mapped column
is `full_url` while the code says `original_url`. -/
inductive StoreError where
  | attributeError
  | typeError
  | invalidRequestError
deriving DecidableEq, Repr

/-- `get_existing_record` from `src/database/crud.py`:
`session.query(ShortLink).filter(ShortLink.original_url == data).first()`.
`ShortLink.original_url` is not an attribute of the mapped class (the
column is `full_url`), so evaluating the filter expression raises
`AttributeError` before the store is consulted — on every input. -/
def get_existing_record (_data : String) (_store : List ShortLink) :
    Except StoreError (Option ShortLink) :=
  .error .attributeError

/-- `get_record_by_short_code` from `src/database/crud.py`:
`session.query(ShortLink).filter(ShortLink.short_url == data).first()`.
`short_url` is a real column, so this lookup works: first match or `None`. -/
def get_record_by_short_code (data : String) (store : List ShortLink) :
    Option ShortLink :=
  store.find? (fun r => r.short_url == data)

/-- `add_new_link` from `src/database/crud.py`:
`ShortLink(original_url=..., short_url=..., created_at=...)` raises
`TypeError` — `original_url` is an invalid keyword argument for the
declarative constructor (and the non-nullable `full_url` is never set) —
before `session.add`, and in particular before any unique-constraint check
could produce a conflict error.  This happens on every input. -/
def add_new_link (_original_url _short_url_code : String) (_created_at : Int)
    (_store : List ShortLink) : Except StoreError (ShortLink × List ShortLink) :=
  .error .typeError

/-- `renew_url_record` from `src/database/crud.py`:
`session.query(ShortLink).filter_by(original_url=data).first()` raises
`InvalidRequestError` (the entity has no property `original_url`) on every
input, so no `created_at` is ever updated.  (Independently, the function's
body mixes clocks: it would write `datetime.now()` — local time — while
staleness everywhere else is judged against `datetime.utcnow()`.) -/
def renew_url_record (_data : String) (_now : Int) (_store : List ShortLink) :
    Except StoreError (List ShortLink) :=
  .error .invalidRequestError

/-! ## Endpoints (`src/app.py`) -/

/-- Outcome of `POST /generator/`.  `ok` (the `LinkResponse` payload),
`rateLimited` (429, app.py:71) and `invalidFormat` (400, app.py:75) are the
responses the handler's text declares, but the code producing them
(app.py:58-89) is unreachable: the only outcome the program can produce is
`internalError`, the 500 of the catch-all `Exception` handler. -/
inductive CreateResult where
  | ok (original_url shortened_url short_url_code : String)
  | rateLimited
  | invalidFormat
  | internalError
deriving DecidableEq, Repr

/-- Outcome of `GET /generator/{short_url}`.  `ok` (the JSON of app.py:109)
is never produced: that line reads `link.original_url`, which raises
`AttributeError`, answered as `internalError` (500). -/
inductive ResolveResult where
  | ok (original_url : String)
  | notFound
  | internalError
deriving DecidableEq, Repr

/-- Outcome of `GET /{short_url}`.  `redirect` is never produced: app.py:140
reads `data.original_url` and raises, answered as `internalError` (500). -/
inductive RedirectResult where
  | redirect (url : String)
  | notFound
  | internalError
deriving DecidableEq, Repr

/-- The `user_link_counts[user_ip]` value right after the defaultdict access
materialises a missing key as `{'count': 0, 'timestamp': datetime.utcnow()}`
(app.py:53). -/
def materializedEntry (st : AppState) (user_ip : String) (now : Int) : LimitEntry :=
  (st.user_link_counts user_ip).getD ⟨0, now⟩

/-- The entry after the window-reset step (app.py:53-54):
`if current_datetime - ...['timestamp'] > timedelta(hours=1): ... = {'count': 0, 'timestamp': current_datetime}`. -/
def windowedEntry (st : AppState) (user_ip : String) (now : Int) : LimitEntry :=
  if now - (materializedEntry st user_ip now).timestamp > 3600 then ⟨0, now⟩
  else materializedEntry st user_ip now

/-- `create_short_url` from `src/app.py`.  The limiter access and window
reset (app.py:51-54) execute first; then `get_existing_record` (app.py:57)
raises on every input and the exception reaches the catch-all handler,
which answers 500.  Lines 58-89 — the found/renewal branch, the admission
check, the validation, the insert and the counter increment — are dead
code, so they are given no semantics here; the second match arm is
unreachable because the lookup always errors. -/
def create_short_url (_linkHost user_ip original_url : String) (now : Int)
    (st : AppState) : CreateResult × AppState :=
  let entry1 := windowedEntry st user_ip now
  let counts1 := fun k => if k == user_ip then some entry1 else st.user_link_counts k
  match get_existing_record original_url st.store with
  | .error _ => (.internalError, ⟨counts1, st.store⟩)
  | .ok _ => (.internalError, ⟨counts1, st.store⟩)

/-- `get_original_url` from `src/app.py` (app.py:92-109).  Absent and stale
codes answer 404; for a fresh record, app.py:109 reads `link.original_url`
(the row only has `full_url`), raises `AttributeError`, and the endpoint
answers 500 — never the URL. -/
def get_original_url (short_url : String) (now : Int) (st : AppState) :
    ResolveResult × AppState :=
  match get_record_by_short_code short_url st.store with
  | none => (.notFound, st)
  | some link =>
      if now - link.created_at > link.ttl then (.notFound, st)
      else (.internalError, st)

/-- `redirect_to_original_url` from `src/app.py` (app.py:123-143).  Absent
and stale codes answer 404; for a fresh record, app.py:140 reads
`data.original_url` in the scheme-normalization test, raises
`AttributeError`, and the endpoint answers 500 — never a redirect. -/
def redirect_to_original_url (short_url : String) (now : Int) (st : AppState) :
    RedirectResult × AppState :=
  match get_record_by_short_code short_url st.store with
  | none => (.notFound, st)
  | some data =>
      if now - data.created_at > data.ttl then (.notFound, st)
      else (.internalError, st)

/-- States reachable from process start: empty rate-limiter map (a fresh
`defaultdict`) and an empty table, closed under the three endpoints. -/
inductive Reach : AppState → Prop where
  | init : Reach ⟨fun _ => none, []⟩
  | create (linkHost user_ip original_url : String) (now : Int) {st : AppState} :
      Reach st → Reach (create_short_url linkHost user_ip original_url now st).2
  | resolve (short_url : String) (now : Int) {st : AppState} :
      Reach st → Reach (get_original_url short_url now st).2
  | redirect (short_url : String) (now : Int) {st : AppState} :
      Reach st → Reach (redirect_to_original_url short_url now st).2

/-! ## Helper lemmas -/

/-- Every create request behaves the same way: the generic 500, the
window-adjusted limiter entry written back, and an unchanged table. -/
theorem create_short_url_eq (linkHost user_ip original_url : String) (now : Int)
    (st : AppState) :
    create_short_url linkHost user_ip original_url now st =
      (.internalError,
       ⟨fun k => if k == user_ip then some (windowedEntry st user_ip now)
                 else st.user_link_counts k,
        st.store⟩) := rfl

theorem get_original_url_state (short_url : String) (now : Int) (st : AppState) :
    (get_original_url short_url now st).2 = st := by
  unfold get_original_url
  cases get_record_by_short_code short_url st.store with
  | none => rfl
  | some link => dsimp only; split_ifs <;> rfl

theorem redirect_to_original_url_state (short_url : String) (now : Int) (st : AppState) :
    (redirect_to_original_url short_url now st).2 = st := by
  unfold redirect_to_original_url
  cases get_record_by_short_code short_url st.store with
  | none => rfl
  | some data => dsimp only; split_ifs <;> rfl

/-- The window-adjusted entry respects any bound that holds for all stored
entries (a reset yields 0, a missing entry materialises at 0). -/
theorem windowedEntry_count_le
    (st : AppState) (user_ip : String) (now : Int)
    (hb : ∀ k e, st.user_link_counts k = some e → e.count ≤ MAX_LINKS_PER_USER) :
    (windowedEntry st user_ip now).count ≤ MAX_LINKS_PER_USER := by
  unfold windowedEntry materializedEntry
  cases hm : st.user_link_counts user_ip with
  | none =>
      dsimp only [Option.getD]
      split_ifs <;> exact Nat.zero_le _
  | some e0 =>
      dsimp only [Option.getD]
      split_ifs
      · exact Nat.zero_le _
      · exact hb user_ip e0 hm

/-- One create step preserves the counter bound. -/
theorem create_counts_le
    (linkHost user_ip u : String) (now : Int) (st : AppState)
    (hb : ∀ k e, st.user_link_counts k = some e → e.count ≤ MAX_LINKS_PER_USER) :
    ∀ k e, (create_short_url linkHost user_ip u now st).2.user_link_counts k = some e →
      e.count ≤ MAX_LINKS_PER_USER := by
  intro k e h
  rw [create_short_url_eq] at h
  dsimp only at h
  by_cases hk : (k == user_ip) = true
  · rw [if_pos hk] at h
    injection h with h
    subst h
    exact windowedEntry_count_le st user_ip now hb
  · rw [if_neg hk] at h
    exact hb k e h

/-! ## Claims -/

/-- C9: the read paths (`GET /generator/{short_url}` and `GET /{short_url}`)
leave the whole state — in particular every stored record — unchanged: no
deletion, no `created_at` renewal, and nothing of the scheme normalization
is ever persisted (in the source that line only touches a detached row
object, and here it crashes before producing a response anyway). -/
theorem resolve_and_redirect_leave_state_unchanged :
    ∀ (short_url : String) (now : Int) (st : AppState),
      (get_original_url short_url now st).2 = st ∧
      (redirect_to_original_url short_url now st).2 = st :=
  fun c now st =>
    ⟨get_original_url_state c now st, redirect_to_original_url_state c now st⟩

/-- C4 counterexample: a fresh record (`full_url = "example.com"`, age well
within TTL) does not resolve to its URL: app.py:109 raises reading
`link.original_url` (the row only has `full_url`) and the endpoint answers
the generic 500 — neither the claimed `original_url` payload nor a 404. -/
theorem fresh_record_resolve_returns_internal_error :
    (get_original_url "abcd" 100
        ⟨fun _ => none, [⟨"example.com", "abcd", 0, 600⟩]⟩).1 = .internalError ∧
    (get_original_url "abcd" 100
        ⟨fun _ => none, [⟨"example.com", "abcd", 0, 600⟩]⟩).1 ≠ .ok "example.com" ∧
    (get_original_url "abcd" 100
        ⟨fun _ => none, [⟨"example.com", "abcd", 0, 600⟩]⟩).1 ≠ .notFound :=
  ⟨by decide, by decide, by decide⟩

/-- C4 (amended): a resolve request fails `NotFound` iff no record carries
the code or the matching record is stale (`now - created_at > ttl`, strict,
so age exactly `ttl` passes the staleness check); but a fresh record does
not yield its `original_url` — the handler crashes reading the attribute
and answers the generic 500 internal error. -/
theorem resolve_notFound_iff_absent_or_stale :
    ∀ (short_url : String) (now : Int) (st : AppState),
      ((get_original_url short_url now st).1 = .notFound ↔
        get_record_by_short_code short_url st.store = none ∨
          ∃ link, get_record_by_short_code short_url st.store = some link ∧
            now - link.created_at > link.ttl) ∧
      (∀ link, get_record_by_short_code short_url st.store = some link →
        now - link.created_at ≤ link.ttl →
        (get_original_url short_url now st).1 = .internalError) := by
  intro c now st
  cases h : get_record_by_short_code c st.store with
  | none =>
      refine ⟨?_, ?_⟩
      · simp [get_original_url, h]
      · intro link hl
        exact absurd hl (by simp)
  | some link =>
      refine ⟨?_, ?_⟩
      · by_cases hs : now - link.created_at > link.ttl <;>
          simp [get_original_url, h, hs]
      · intro link' hl hfresh
        injection hl with he
        subst he
        simp [get_original_url, h, show ¬(now - link.created_at > link.ttl) by omega]

/-- Witness for the amended C4, at the TTL boundary: a record of age exactly
`ttl` (`created_at = 0`, `ttl = 600`, `now = 600`) passes the staleness
check — and then the handler crashes, answering 500. -/
theorem resolve_notFound_iff_absent_or_stale_witness :
    (get_original_url "efgh" 600
        ⟨fun _ => none, [⟨"example.org", "efgh", 0, 600⟩]⟩).1 = .internalError :=
  (resolve_notFound_iff_absent_or_stale "efgh" 600 _).2
    ⟨"example.org", "efgh", 0, 600⟩ rfl (by decide)

/-- C3 (code bug): at the claim's own scenario — a stale record
(`created_at = 0`, `ttl = 600`) for the resubmitted URL at `now = 601` —
the create request answers the generic 500 (the existence lookup raises at
app.py:57), the table is unchanged (`created_at` stays 0: no renewal, the
link does not become fresh, no code is returned), and `renew_url_record`
itself raises `InvalidRequestError` on its `filter_by(original_url=...)`. -/
theorem create_with_stale_record_returns_internal_error :
    (create_short_url "h" "ip" "example.com" 601
        ⟨fun _ => none, [⟨"example.com", "c0de", 0, 600⟩]⟩).1 = .internalError ∧
    (create_short_url "h" "ip" "example.com" 601
        ⟨fun _ => none, [⟨"example.com", "c0de", 0, 600⟩]⟩).2.store =
      [⟨"example.com", "c0de", 0, 600⟩] ∧
    renew_url_record "example.com" 601 [⟨"example.com", "c0de", 0, 600⟩] =
      .error .invalidRequestError :=
  ⟨rfl, rfl, rfl⟩

/-- C1 counterexample: a client at `count = 100` (over quota) requesting an
already-shortened URL (`full_url = "example.com"` is in the table) does
not receive `RateLimited`: the request dies inside the existence lookup and
answers the generic 500, and the counter stays at `⟨100, 0⟩` — no quota is
consumed. -/
theorem over_quota_existing_url_not_rate_limited :
    (create_short_url "h" "9.9.9.9" "example.com" 0
        ⟨fun k => if k == "9.9.9.9" then some ⟨100, 0⟩ else none,
         [⟨"example.com", "c0de", 0, 600⟩]⟩).1 ≠ .rateLimited ∧
    (create_short_url "h" "9.9.9.9" "example.com" 0
        ⟨fun k => if k == "9.9.9.9" then some ⟨100, 0⟩ else none,
         [⟨"example.com", "c0de", 0, 600⟩]⟩).1 = .internalError ∧
    (create_short_url "h" "9.9.9.9" "example.com" 0
        ⟨fun k => if k == "9.9.9.9" then some ⟨100, 0⟩ else none,
         [⟨"example.com", "c0de", 0, 600⟩]⟩).2.user_link_counts "9.9.9.9" =
      some ⟨100, 0⟩ :=
  ⟨by decide, by decide, by decide⟩

/-- C1 (amended): only the limiter's window reset precedes the existence
lookup; the over-quota admission check (app.py:70) sits in the not-found
branch and is never reached because the lookup itself raises.  Every create
request — already-shortened URL or not, over quota or not — answers the
generic 500 internal error, is never `RateLimited`, and consumes no quota:
the stored entry keeps exactly its window-adjusted value and the table is
untouched. -/
theorem create_never_rate_limits_and_consumes_no_quota :
    ∀ (linkHost user_ip url : String) (now : Int) (st : AppState),
      (create_short_url linkHost user_ip url now st).1 = .internalError ∧
      (create_short_url linkHost user_ip url now st).1 ≠ .rateLimited ∧
      (create_short_url linkHost user_ip url now st).2.user_link_counts user_ip =
        some (windowedEntry st user_ip now) ∧
      (create_short_url linkHost user_ip url now st).2.store = st.store := by
  intro host ip url now st
  rw [create_short_url_eq]
  refine ⟨rfl, by simp, by simp, rfl⟩

/-- C2 counterexample: with a stored record whose `short_url` equals
`generate_short_code "example.org"` under a different URL — the
digest-collision situation the claim is about — the insert does not fail
with a conflict error and the endpoint does not answer 409: `add_new_link`
raises `TypeError` before any constraint check, and the create endpoint,
which dies even earlier in the existence lookup, answers the generic 500
with the table unchanged. -/
theorem conflicting_insert_returns_generic_internal_error :
    add_new_link "example.org" (generate_short_code "example.org") 0
        [⟨"other.com", generate_short_code "example.org", 0, 600⟩] =
      .error .typeError ∧
    (create_short_url "h" "ip" "example.org" 0
        ⟨fun _ => none,
         [⟨"other.com", generate_short_code "example.org", 0, 600⟩]⟩).1 =
      .internalError ∧
    (create_short_url "h" "ip" "example.org" 0
        ⟨fun _ => none,
         [⟨"other.com", generate_short_code "example.org", 0, 600⟩]⟩).2.store =
      [⟨"other.com", generate_short_code "example.org", 0, 600⟩] :=
  ⟨rfl, rfl, rfl⟩

/-- C2 (amended): no insert ever fails with a uniqueness `ConflictError`
and no 409 is ever returned: `add_new_link` raises `TypeError` on every
input before any constraint could be checked, and the create flow never
even reaches the insert — the existence lookup raises first — so the
endpoint answers the generic 500 internal error with the table unchanged. -/
theorem add_new_link_always_type_error_never_conflict :
    ∀ (url code : String) (created_at : Int) (store : List ShortLink)
      (linkHost user_ip : String) (now : Int) (st : AppState),
      add_new_link url code created_at store = .error .typeError ∧
      (create_short_url linkHost user_ip url now st).1 = .internalError ∧
      (create_short_url linkHost user_ip url now st).2.store = st.store :=
  fun _ _ _ _ _ _ _ _ => ⟨rfl, rfl, rfl⟩

/-- C5 (code bug): shortening never succeeds — already the first creation
request on the empty store answers the generic 500 and inserts nothing, and
no input whatsoever makes `create_short_url` produce an `ok` response — so
there is never a freshly created code to resolve and the round trip cannot
be exercised. -/
theorem create_never_succeeds_no_round_trip :
    (create_short_url "h" "ip" "example.com" 0 ⟨fun _ => none, []⟩).1 =
      .internalError ∧
    (create_short_url "h" "ip" "example.com" 0 ⟨fun _ => none, []⟩).2.store = [] ∧
    (∀ (linkHost user_ip url : String) (now : Int) (st : AppState)
      (orig shortened code : String),
      (create_short_url linkHost user_ip url now st).1 ≠ .ok orig shortened code) := by
  refine ⟨rfl, rfl, ?_⟩
  intro host ip url now st orig shortened code
  rw [create_short_url_eq]
  simp

/-- C6 (code bug): the limiter's admission check (app.py:70) and increment
(app.py:84) are dead code.  With the counter already at 100 inside the
window — the claim's 101st request — a creation request for a new URL
answers the generic 500, not `RateLimited`, and the counter stays
`⟨100, 0⟩`; a first-time client's entry materialises as `⟨0, now⟩` and is
not incremented; and after the hour has passed the entry is indeed reset to
`⟨0, now⟩` (app.py:53-54 does run) — but the request still answers 500
rather than succeeding. -/
theorem rate_limiter_never_consulted_on_create :
    (create_short_url "h" "1.2.3.4" "fresh-url.com" 10
        ⟨fun k => if k == "1.2.3.4" then some ⟨100, 0⟩ else none, []⟩).1 =
      .internalError ∧
    (create_short_url "h" "1.2.3.4" "fresh-url.com" 10
        ⟨fun k => if k == "1.2.3.4" then some ⟨100, 0⟩ else none, []⟩).1 ≠
      .rateLimited ∧
    (create_short_url "h" "1.2.3.4" "fresh-url.com" 10
        ⟨fun k => if k == "1.2.3.4" then some ⟨100, 0⟩ else none,
         []⟩).2.user_link_counts "1.2.3.4" = some ⟨100, 0⟩ ∧
    (create_short_url "h" "5.6.7.8" "fresh-url.com" 10
        ⟨fun k => if k == "1.2.3.4" then some ⟨100, 0⟩ else none,
         []⟩).2.user_link_counts "5.6.7.8" = some ⟨0, 10⟩ ∧
    (create_short_url "h" "1.2.3.4" "fresh-url.com" 3700
        ⟨fun k => if k == "1.2.3.4" then some ⟨100, 0⟩ else none,
         []⟩).2.user_link_counts "1.2.3.4" = some ⟨0, 3700⟩ :=
  ⟨by decide, by decide, by decide, by decide, by decide⟩

/-- C10: in every reachable state, every stored rate-limiter entry carries a
count of at most `MAX_LINKS_PER_USER` (100): the only increment in the
source sits behind the `count < 100` admission check (and is in fact never
executed), while resets and materialisations store 0 and the read paths do
not touch the map. -/
theorem reachable_counter_at_most_max :
    ∀ st : AppState, Reach st → ∀ (user_ip : String) (e : LimitEntry),
      st.user_link_counts user_ip = some e → e.count ≤ MAX_LINKS_PER_USER := by
  intro st h
  induction h with
  | init =>
      intro ip e h
      simp at h
  | create linkHost user_ip u now hst ih =>
      exact create_counts_le linkHost user_ip u now _ ih
  | resolve c now hst ih =>
      rw [get_original_url_state]
      exact ih
  | redirect c now hst ih =>
      rw [redirect_to_original_url_state]
      exact ih

/-- Witness for C10: the state reached by one create request from the
initial state stores the materialised entry `⟨0, 0⟩`, whose count obeys the
bound. -/
theorem reachable_counter_at_most_max_witness :
    (create_short_url "h" "ip" "example.com" 0
        ⟨fun _ => none, []⟩).2.user_link_counts "ip" = some ⟨0, 0⟩ ∧
    ({ count := 0, timestamp := 0 } : LimitEntry).count ≤ MAX_LINKS_PER_USER :=
  ⟨rfl,
   reachable_counter_at_most_max _
     (Reach.create "h" "ip" "example.com" 0 Reach.init) "ip" ⟨0, 0⟩ rfl⟩
